import Mathlib

/-!
Verification development for the Vienna real-estate listing tracker.

The Python sources (src/scraper.py, src/db.py, scripts/scrape.py) are shallowly
embedded below: pure functions become Lean functions, the SQLite tables become
lists of rows inside a `DB` structure, and each database-mutating function
becomes an explicit state-passing function on `DB`.  Python floats are modelled
as exact rationals (ℚ), Python ints as ℤ/ℕ, and timestamps as naturals ordered
chronologically.  Python `round` is round-half-to-even, modelled by
`pythonRound` below.
-/

namespace ViennaRE

section

attribute [local semireducible] Rat.add Rat.sub Rat.mul Rat.inv

/-- Timestamps are abstracted as naturals; only their ordering and equality are
used by the embedded code. -/
abbrev Timestamp := Nat

/-- Python built-in `round(x)`: round half to even (banker's rounding). -/
def pythonRound (q : ℚ) : ℤ :=
  if q - q.floor < 1/2 then q.floor
  else if 1/2 < q - q.floor then q.floor + 1
  else if q.floor % 2 = 0 then q.floor else q.floor + 1

/-- Python built-in `round(x, 2)`: round to two decimal places, half to even. -/
def pythonRound2 (q : ℚ) : ℚ :=
  (pythonRound (q * 100) : ℚ) / 100

theorem rat_floor_le (q : ℚ) : (q.floor : ℚ) ≤ q :=
  Rat.le_floor.mp le_rfl

theorem rat_lt_floor_add_one (q : ℚ) : q < q.floor + 1 := by
  by_contra h
  push_neg at h
  have h2 : q.floor + 1 ≤ q.floor := Rat.le_floor.mpr (by exact_mod_cast h)
  omega

/-- The banker's rounding used by Python lands on a nearest whole unit:
it never moves a value by more than one half. -/
theorem pythonRound_nearest (q : ℚ) : |(pythonRound q : ℚ) - q| ≤ 1/2 := by
  have h1 := rat_floor_le q
  have h2 := rat_lt_floor_add_one q
  unfold pythonRound
  split
  · rw [abs_le]
    constructor <;> linarith
  · split
    · rw [abs_le]
      constructor <;> push_cast <;> linarith
    · split
      · rw [abs_le]
        constructor <;> linarith
      · rw [abs_le]
        constructor <;> push_cast <;> linarith

/-- ASCII whitespace accepted around the body of a Python integer literal by
`int(str)`: space, tab, newline, carriage return, vertical tab, form feed. -/
def isPyWs (c : Char) : Bool :=
  c.toNat == 32 || c.toNat == 9 || c.toNat == 10 || c.toNat == 13 ||
  c.toNat == 11 || c.toNat == 12

/-- ASCII decimal digit test, the digits accepted by Python `int(str)`. -/
def isDigitChar (c : Char) : Bool :=
  48 ≤ c.toNat && c.toNat ≤ 57

/-- Strip leading and trailing whitespace, as Python `int(str)` does before
parsing the body. -/
def stripChars (l : List Char) : List Char :=
  ((l.dropWhile isPyWs).reverse.dropWhile isPyWs).reverse

/-- Decimal value of a digit string. -/
def digitsVal (l : List Char) : ℕ :=
  l.foldl (fun a c => a * 10 + (c.toNat - 48)) 0

/-- Validity of the part of a Python integer literal after the first digit:
digits, with single underscores allowed only between digits. -/
def validDigitsUnd : List Char → Bool
  | [] => true
  | c :: r =>
    if c == '_' then
      match r with
      | [] => false
      | d :: r2 => isDigitChar d && validDigitsUnd r2
    else isDigitChar c && validDigitsUnd r

/-- Validity of the unsigned body of a Python integer literal: nonempty, starts
with a digit, then `validDigitsUnd`. -/
def validIntBody (l : List Char) : Bool :=
  match l with
  | [] => false
  | c :: _ => isDigitChar c && validDigitsUnd l

/-- Underscore separators contribute no value. -/
def dropUnderscores (l : List Char) : List Char :=
  l.filter (fun c => c != '_')

/-- Python `int(str)` on ASCII input, returning `none` where CPython raises
`ValueError`: surrounding whitespace is stripped, one optional sign is allowed,
then a nonempty digit string with single underscores between digits. -/
def pythonInt (s : String) : Option ℤ :=
  match stripChars s.data with
  | [] => none
  | c :: rest =>
    if c == '-' then
      if validIntBody rest then some (-(digitsVal (dropUnderscores rest) : ℤ)) else none
    else if c == '+' then
      if validIntBody rest then some ((digitsVal (dropUnderscores rest) : ℤ)) else none
    else
      if validIntBody (c :: rest) then some ((digitsVal (dropUnderscores (c :: rest)) : ℤ)) else none

/-- The character removal performed by `parse_price_value` in src/scraper.py
lines 58-59: `.replace("€", "").replace(" ", "").replace(".", "").replace(",", "")`. -/
def cleanedPrice (s : String) : String :=
  String.mk (s.data.filter (fun c => !(c == '€' || c == ' ' || c == '.' || c == ',')))

/-- Embedding of `parse_price_value` (src/scraper.py lines 54-63): empty string
is falsy and returns `None`; otherwise the cleaned string is given to `int`,
with `ValueError` mapped to `None`. -/
def parse_price_value (price_str : String) : Option ℤ :=
  if price_str = "" then none
  else pythonInt (cleanedPrice price_str)

/-- Modelled from the claim's words, for comparison with the code: strip
currency symbol, whitespace and `.` thousands separators, drop the decimal
part after a `,`, and return the integer magnitude of the remaining digits;
nothing on empty input or when the remainder is not all digits. -/
def parse_price_claimed (s : String) : Option ℤ :=
  match (s.data.filter (fun c => !(c == '€' || isPyWs c || c == '.'))).takeWhile
      (fun c => c != ',') with
  | [] => none
  | l => if l.all isDigitChar then some ((digitsVal l : ℤ)) else none

/-- Embedding of the price-per-area derivation in src/scraper.py lines 100-102:
`if price_value and size_value and size_value > 0`, with Python truthiness
(both `None` and `0` are falsy), then `round(price_value / size_value, 2)`. -/
def derive_price_per_sqm (price_value : Option ℤ) (size_sqm_value : Option ℚ) : Option ℚ :=
  match price_value, size_sqm_value with
  | some p, some sz =>
    if p ≠ 0 ∧ sz ≠ 0 ∧ 0 < sz then some (pythonRound2 ((p : ℚ) / sz)) else none
  | _, _ => none

/-- Modelled from the claim's words, for comparison with the code: price/size
rounded to 2 decimals exactly when both inputs are present and size > 0. -/
def derive_price_per_area_claimed (price : Option ℤ) (size : Option ℚ) : Option ℚ :=
  match price, size with
  | some p, some sz => if 0 < sz then some (pythonRound2 ((p : ℚ) / sz)) else none
  | _, _ => none

/-- Amended reading of the derivation: additionally requires price ≠ 0,
because Python truthiness makes a present-but-zero price falsy. -/
def derive_price_per_area_amended (price : Option ℤ) (size : Option ℚ) : Option ℚ :=
  match price, size with
  | some p, some sz => if p ≠ 0 ∧ 0 < sz then some (pythonRound2 ((p : ℚ) / sz)) else none
  | _, _ => none

/-- Row of the `listings` table (src/db.py schema lines 14-19). -/
structure ListingRow where
  id : Nat
  ad_id : String
  url : String
  first_seen_at : Timestamp
deriving DecidableEq, Repr

/-- Row of the `snapshots` table (src/db.py schema lines 22-35). -/
structure SnapshotRow where
  listing_id : Nat
  scraped_at : Timestamp
  title : String
  price : String
  price_value : Option ℤ
  location : String
  rooms : String
  size_sqm : String
  size_sqm_value : Option ℚ
  price_per_sqm : Option ℚ
deriving DecidableEq, Repr

/-- Row of the `listing_status` table (src/db.py schema lines 38-42); the
status string is `"open"` or `"closed"`. -/
structure StatusRow where
  listing_id : Nat
  status : String
  closed_at : Option Timestamp
deriving DecidableEq, Repr

/-- Row of the `scrape_runs` table (src/db.py schema lines 45-53). -/
structure RunRow where
  id : Nat
  started_at : Timestamp
  completed_at : Option Timestamp
  listings_found : Option ℤ
  new_listings : Option ℤ
  closed_listings : Option ℤ
  status : String
deriving DecidableEq, Repr

/-- The SQLite database state: the four tables plus the AUTOINCREMENT
counters backing `listings.id` and `scrape_runs.id`. -/
structure DB where
  listings : List ListingRow
  snapshots : List SnapshotRow
  listing_status : List StatusRow
  scrape_runs : List RunRow
  next_listing_id : Nat
  next_run_id : Nat
deriving DecidableEq, Repr

/-- A database with empty tables, as produced by `init_db`. -/
def emptyDB : DB := ⟨[], [], [], [], 1, 1⟩

/-- Embedding of `get_or_create_listing` (src/db.py lines 81-103).  The row
insertion time `now` stands for `datetime.utcnow()`. -/
def get_or_create_listing (db : DB) (ad_id url : String) (now : Timestamp) : DB × Nat :=
  match db.listings.find? (fun l => l.ad_id == ad_id) with
  | some row => (db, row.id)
  | none =>
    ({ db with
        listings := db.listings ++ [⟨db.next_listing_id, ad_id, url, now⟩],
        listing_status := db.listing_status ++ [⟨db.next_listing_id, "open", none⟩],
        next_listing_id := db.next_listing_id + 1 },
     db.next_listing_id)

/-- Embedding of `insert_snapshot` (src/db.py lines 106-127).  The
`UNIQUE(listing_id, scraped_at)` table constraint raises `IntegrityError`,
modelled as the error case. -/
def insert_snapshot (db : DB) (r : SnapshotRow) : Except String DB :=
  if db.snapshots.any (fun s => s.listing_id == r.listing_id && s.scraped_at == r.scraped_at) then
    Except.error "UNIQUE constraint failed: snapshots.listing_id, snapshots.scraped_at"
  else
    Except.ok { db with snapshots := db.snapshots ++ [r] }

/-- Embedding of `get_open_listing_ad_ids` (src/db.py lines 130-140):
`listings JOIN listing_status` filtered to status `open`, projecting `ad_id`. -/
def get_open_listing_ad_ids (db : DB) : List String :=
  (db.listings.map (fun l =>
    db.listing_status.filterMap (fun s =>
      if s.listing_id == l.id && s.status == "open" then some l.ad_id else none))).flatten

/-- Listing ids matched by the subquery `SELECT id FROM listings WHERE ad_id IN (...)`
of `mark_listings_closed` (src/db.py line 158). -/
def matched_listing_ids (db : DB) (ad_ids : List String) : List Nat :=
  db.listings.filterMap (fun l => if ad_ids.contains l.ad_id then some l.id else none)

/-- Embedding of `mark_listings_closed` (src/db.py lines 143-163): an UPDATE of
every `listing_status` row whose listing id is matched, with the cursor
rowcount as result.  Note the UPDATE has no `status = 'open'` filter. -/
def mark_listings_closed (db : DB) (ad_ids : List String) (closed_at : Timestamp) : DB × Nat :=
  if ad_ids.isEmpty then (db, 0)
  else
    ({ db with listing_status := db.listing_status.map (fun st =>
        if (matched_listing_ids db ad_ids).contains st.listing_id then
          { st with status := "closed", closed_at := some closed_at }
        else st) },
     db.listing_status.countP (fun st => (matched_listing_ids db ad_ids).contains st.listing_id))

/-- Embedding of `start_scrape_run` (src/db.py lines 166-172). -/
def start_scrape_run (db : DB) (now : Timestamp) : DB × Nat :=
  ({ db with
      scrape_runs := db.scrape_runs ++ [⟨db.next_run_id, now, none, none, none, none, "running"⟩],
      next_run_id := db.next_run_id + 1 },
   db.next_run_id)

/-- Embedding of `complete_scrape_run` (src/db.py lines 175-191). -/
def complete_scrape_run (db : DB) (run_id : Nat)
    (listings_found new_listings closed_listings : ℤ) (now : Timestamp) : DB :=
  { db with scrape_runs := db.scrape_runs.map (fun r =>
      if r.id == run_id then
        { r with completed_at := some now, listings_found := some listings_found,
                 new_listings := some new_listings, closed_listings := some closed_listings,
                 status := "completed" }
      else r) }

/-- Embedding of `fail_scrape_run` (src/db.py lines 194-203), including the
truncation `error[:200]`. -/
def fail_scrape_run (db : DB) (run_id : Nat) (error : String) (now : Timestamp) : DB :=
  { db with scrape_runs := db.scrape_runs.map (fun r =>
      if r.id == run_id then
        { r with completed_at := some now, status := "failed: " ++ error.take 200 }
      else r) }

/-- The scraper's `Listing` dataclass (src/scraper.py lines 12-24). -/
structure Listing where
  ad_id : String
  title : String
  price : String
  price_value : Option ℤ
  location : String
  rooms : String
  size_sqm : String
  size_sqm_value : Option ℚ
  price_per_sqm : Option ℚ
  url : String
deriving DecidableEq, Repr

/-- Result of the per-listing loop of `run_scrape`: either the updated
database with the accumulated `scraped_ad_ids` and `new_count`, or the
database at the point an exception escaped the loop, with its message. -/
inductive ProcResult where
  | ok (db : DB) (scraped : List String) (newCount : Nat)
  | err (db : DB) (msg : String)
deriving DecidableEq, Repr

/-- Embedding of the `for listing in listings` loop of `run_scrape`
(scripts/scrape.py lines 79-105): entries with empty (falsy) ad_id are
skipped; `is_new` is membership in `open_ad_ids_before`; an `IntegrityError`
from `insert_snapshot` propagates, aborting the loop. -/
def process_listings (openBefore : List String) (capturedAt : Timestamp) :
    DB → List Listing → List String → Nat → ProcResult
  | db, [], scraped, newCount => ProcResult.ok db scraped newCount
  | db, l :: rest, scraped, newCount =>
    if l.ad_id = "" then
      process_listings openBefore capturedAt db rest scraped newCount
    else
      match insert_snapshot (get_or_create_listing db l.ad_id l.url capturedAt).1
          { listing_id := (get_or_create_listing db l.ad_id l.url capturedAt).2,
            scraped_at := capturedAt, title := l.title, price := l.price,
            price_value := l.price_value, location := l.location, rooms := l.rooms,
            size_sqm := l.size_sqm, size_sqm_value := l.size_sqm_value,
            price_per_sqm := l.price_per_sqm } with
      | Except.error e => ProcResult.err (get_or_create_listing db l.ad_id l.url capturedAt).1 e
      | Except.ok db2 =>
        process_listings openBefore capturedAt db2 rest (scraped ++ [l.ad_id])
          (if openBefore.contains l.ad_id then newCount else newCount + 1)

/-- Terminal outcome of one ingestion cycle, as recorded by the Run Tracker. -/
inductive RunResult where
  | completed (listingsFound newListings closedListings : Nat)
  | failed (msg : String)
deriving DecidableEq, Repr

/-- Database plus result of one `run_scrape` call. -/
structure CycleOutcome where
  db : DB
  result : RunResult
deriving DecidableEq, Repr

/-- Embedding of `run_scrape` (scripts/scrape.py lines 48-133).  The scraping
collaborator is a parameter: `Except.error e` models `scrape_listings`
raising, `Except.ok listings` models it returning a list.  `startedAt` models
the `datetime.utcnow()` at run start, `capturedAt` the `scraped_at` used for
every snapshot of the cycle.  Any exception inside the `try` block lands in
the `except` branch: `fail_scrape_run` plus commit, so mutations made before
the exception are kept. -/
def run_scrape (db : DB) (startedAt : Timestamp)
    (scrapeResult : Except String (List Listing)) (capturedAt : Timestamp) : CycleOutcome :=
  let started := start_scrape_run db startedAt
  match scrapeResult with
  | Except.error e =>
    { db := fail_scrape_run started.1 started.2 e capturedAt,
      result := RunResult.failed e }
  | Except.ok listings =>
    let openBefore := get_open_listing_ad_ids started.1
    match process_listings openBefore capturedAt started.1 listings [] 0 with
    | ProcResult.err dbF e =>
      { db := fail_scrape_run dbF started.2 e capturedAt,
        result := RunResult.failed e }
    | ProcResult.ok db1 scrapedIds newCount =>
      let closedIds := openBefore.filter (fun a => !scrapedIds.contains a)
      let marked := if closedIds.isEmpty then (db1, 0) else
        mark_listings_closed db1 closedIds capturedAt
      { db := complete_scrape_run marked.1 started.2
          (listings.length : ℤ) (newCount : ℤ) (marked.2 : ℤ) capturedAt,
        result := RunResult.completed listings.length newCount marked.2 }

/-- Internal listing id mapped from an external ad id, if any. -/
def listing_id_of (db : DB) (ad : String) : Option Nat :=
  (db.listings.find? (fun l => l.ad_id == ad)).map (fun l => l.id)

/-- Status row of the listing carrying the given ad id, if any. -/
def status_of (db : DB) (ad : String) : Option StatusRow :=
  match listing_id_of db ad with
  | some i => db.listing_status.find? (fun s => s.listing_id == i)
  | none => none

/-- Number of stored snapshots of the listing carrying the given ad id. -/
def snapshot_count (db : DB) (ad : String) : Nat :=
  match listing_id_of db ad with
  | some i => db.snapshots.countP (fun s => s.listing_id == i)
  | none => 0

/-- The `MAX(scraped_at) ... GROUP BY listing_id` subquery shared by the
dashboard queries in src/db.py. -/
def latest_scraped_at (db : DB) (lid : Nat) : Option Timestamp :=
  (db.snapshots.filterMap (fun s => if s.listing_id == lid then some s.scraped_at else none)).max?

/-- The latest-snapshot view: snapshot rows joining the `MAX(scraped_at)`
subquery on `(listing_id, scraped_at)`. -/
def latest_snapshots (db : DB) : List SnapshotRow :=
  db.snapshots.filter (fun s => latest_scraped_at db s.listing_id == some s.scraped_at)

/-- Latest-snapshot rows with non-null `price_value`, the row set of the
query in `get_overall_price_stats` (src/db.py lines 286-298) and of the
current-aggregate query in `get_market_trends` (lines 526-540). -/
def priced_latest_rows (db : DB) : List SnapshotRow :=
  (latest_snapshots db).filter (fun s => s.price_value.isSome)

/-- The `price_value` column of `priced_latest_rows`, unsorted. -/
def latestPrices (db : DB) : List ℤ :=
  (priced_latest_rows db).filterMap (fun s => s.price_value)

/-- Prices as fetched by `get_overall_price_stats`: the view ordered by
`price_value` ascending (src/db.py line 296). -/
def overall_prices (db : DB) : List ℤ :=
  (latestPrices db).insertionSort (· ≤ ·)

/-- Python truthiness filter `if row["price_per_sqm"]` (src/db.py line 310):
keeps values that are neither NULL nor 0. -/
def overall_ppsqms (db : DB) : List ℚ :=
  (priced_latest_rows db).filterMap (fun s =>
    match s.price_per_sqm with
    | some q => if q = 0 then none else some q
    | none => none)

/-- Sum of a list of rationals. -/
def ratSum (l : List ℚ) : ℚ := l.foldl (· + ·) 0

/-- Sum of a list of integers, as a rational. -/
def intSumQ (l : List ℤ) : ℚ := l.foldl (fun a n => a + (n : ℚ)) 0

/-- Result record of `get_overall_price_stats`. -/
structure OverallStats where
  median_price : ℤ
  avg_price : ℤ
  avg_price_per_sqm : ℤ
  count : Nat
deriving DecidableEq, Repr

/-- Embedding of `get_overall_price_stats` (src/db.py lines 283-328): median
by central index over the sorted prices, `sum/len` averages, all rounded by
Python `round`; the all-zero record when no priced rows exist. -/
def get_overall_price_stats (db : DB) : OverallStats :=
  let prices := overall_prices db
  if prices.isEmpty then ⟨0, 0, 0, 0⟩
  else
    let n := prices.length
    let median : ℚ :=
      if n % 2 = 0 then
        (((prices.getD (n / 2 - 1) 0 : ℤ) : ℚ) + ((prices.getD (n / 2) 0 : ℤ) : ℚ)) / 2
      else ((prices.getD (n / 2) 0 : ℤ) : ℚ)
    let ppsqms := overall_ppsqms db
    { median_price := pythonRound median,
      avg_price := pythonRound (intSumQ prices / (n : ℚ)),
      avg_price_per_sqm :=
        if ppsqms.isEmpty then 0 else pythonRound (ratSum ppsqms / (ppsqms.length : ℚ)),
      count := n }

/-- Modelled from the spec's words: sort ascending; even count, the mean of
the two central elements; odd count, the central element. -/
def textbookMedian (l : List ℤ) : ℚ :=
  if l.length % 2 = 0 then
    ((((l.insertionSort (· ≤ ·)).getD (l.length / 2 - 1) 0 : ℤ) : ℚ)
      + (((l.insertionSort (· ≤ ·)).getD (l.length / 2) 0 : ℤ) : ℚ)) / 2
  else (((l.insertionSort (· ≤ ·)).getD (l.length / 2) 0 : ℤ) : ℚ)

/-- Result record of `get_market_trends`. -/
structure MarketTrends where
  current_avg_price : ℤ
  previous_avg_price : ℤ
  price_change_pct : ℚ
  current_avg_ppsqm : ℤ
  previous_avg_ppsqm : ℤ
  ppsqm_change_pct : ℚ
  current_count : Nat
  previous_count : Nat
  count_change : ℤ
deriving DecidableEq, Repr

/-- The all-zero trends record returned when no completed run exists
(src/db.py lines 512-523). -/
def zeroTrends : MarketTrends := ⟨0, 0, 0, 0, 0, 0, 0, 0, 0⟩

/-- The two most recent completed runs: `WHERE status = 'completed'
ORDER BY started_at DESC LIMIT 2` (src/db.py lines 501-509). -/
def completed_runs_desc (db : DB) : List RunRow :=
  ((db.scrape_runs.filter (fun r => r.status == "completed")).insertionSort
    (fun a b => b.started_at ≤ a.started_at)).take 2

/-- Current average price: `AVG(price_value)` over the priced latest view,
with SQL NULL (empty view) collapsed to 0 by `or 0` (src/db.py line 543). -/
def currentAvgPrice (db : DB) : ℚ :=
  if (priced_latest_rows db).isEmpty then 0
  else intSumQ (latestPrices db) / ((priced_latest_rows db).length : ℚ)

/-- Current average price per sqm: `AVG(price_per_sqm)` ignores NULLs, and an
all-NULL column yields NULL, collapsed to 0 by `or 0` (src/db.py line 544). -/
def currentAvgPpsqm (db : DB) : ℚ :=
  let ppl := (priced_latest_rows db).filterMap (fun s => s.price_per_sqm)
  if ppl.isEmpty then 0 else ratSum ppl / (ppl.length : ℚ)

/-- Snapshots feeding the previous-period query: `scraped_at < ? AND
price_value IS NOT NULL` (src/db.py line 562). -/
def prev_snapshots (db : DB) (t : Timestamp) : List SnapshotRow :=
  db.snapshots.filter (fun s => decide (s.scraped_at < t) && s.price_value.isSome)

/-- First-occurrence deduplication, used for the GROUP BY keys. -/
def dedupNat (l : List Nat) : List Nat :=
  l.foldl (fun acc x => if acc.contains x then acc else acc ++ [x]) []

/-- The `GROUP BY listing_id` groups of the previous-period query
(src/db.py lines 555-567). -/
def prev_groups (db : DB) (t : Timestamp) : List (List SnapshotRow) :=
  (dedupNat ((prev_snapshots db t).map (fun s => s.listing_id))).map
    (fun i => (prev_snapshots db t).filter (fun s => s.listing_id == i))

/-- Per-group `AVG(price_value)`; every group row has a price by the WHERE
clause. -/
def groupAvgPrice (g : List SnapshotRow) : ℚ :=
  intSumQ (g.filterMap (fun s => s.price_value)) / (g.length : ℚ)

/-- Per-group `AVG(price_per_sqm)`: NULL when no row of the group has one. -/
def groupAvgPpsqm (g : List SnapshotRow) : Option ℚ :=
  let ps := g.filterMap (fun s => s.price_per_sqm)
  if ps.isEmpty then none else some (ratSum ps / (ps.length : ℚ))

/-- Group averages surviving the Python truthiness filter
`[r["avg_price"] for r in prev_rows if r["avg_price"]]` (src/db.py line 569). -/
def prevPrices (db : DB) (t : Timestamp) : List ℚ :=
  ((prev_groups db t).map groupAvgPrice).filter (fun q => q != 0)

/-- Group price-per-sqm averages surviving NULL removal and the truthiness
filter (src/db.py line 570). -/
def prevPpsqms (db : DB) (t : Timestamp) : List ℚ :=
  ((prev_groups db t).filterMap groupAvgPpsqm).filter (fun q => q != 0)

/-- Embedding of `get_market_trends` (src/db.py lines 498-596). -/
def get_market_trends (db : DB) : MarketTrends :=
  let runs := completed_runs_desc db
  if runs.length < 1 then zeroTrends
  else
    let curP := currentAvgPrice db
    let curS := currentAvgPpsqm db
    let curC := (priced_latest_rows db).length
    let t := (runs.getD 1 ⟨0, 0, none, none, none, none, ""⟩).started_at
    let prevP := if 2 ≤ runs.length ∧ prev_groups db t ≠ [] ∧ prevPrices db t ≠ [] then
        ratSum (prevPrices db t) / ((prevPrices db t).length : ℚ)
      else curP
    let prevS := if 2 ≤ runs.length ∧ prev_groups db t ≠ [] ∧ prevPpsqms db t ≠ [] then
        ratSum (prevPpsqms db t) / ((prevPpsqms db t).length : ℚ)
      else curS
    let prevC := if 2 ≤ runs.length ∧ prev_groups db t ≠ [] then (prev_groups db t).length
      else curC
    { current_avg_price := pythonRound curP,
      previous_avg_price := pythonRound prevP,
      price_change_pct := pythonRound2 (if 0 < prevP then (curP - prevP) / prevP * 100 else 0),
      current_avg_ppsqm := pythonRound curS,
      previous_avg_ppsqm := pythonRound prevS,
      ppsqm_change_pct := pythonRound2 (if 0 < prevS then (curS - prevS) / prevS * 100 else 0),
      current_count := curC,
      previous_count := prevC,
      count_change := (curC : ℤ) - (prevC : ℤ) }

/-- A raw listing with everything empty except the ad id, title and url. -/
def mkListing (ad : String) : Listing :=
  ⟨ad, "t", "", none, "", "", "", none, none, "u"⟩

/-- Database holding one listing "X" that is currently open. -/
def dbOneOpen : DB :=
  ⟨[⟨1, "X", "u", 0⟩], [], [⟨1, "open", none⟩], [], 2, 1⟩

/-- Database holding one listing "X" already closed at time 10. -/
def dbClosedX : DB :=
  ⟨[⟨1, "X", "u", 0⟩], [], [⟨1, "closed", some 10⟩], [], 2, 1⟩

/-- Claim C8, counterexample: with a present-but-zero price and a valid
positive size, the code returns nothing (Python truthiness makes `0` falsy),
while the claimed behaviour ("exactly when both inputs are present and
size > 0") demands `some 0`. -/
theorem derive_price_per_sqm_zero_price_counterexample :
    derive_price_per_sqm (some 0) (some 80) = none
    ∧ derive_price_per_area_claimed (some 0) (some 80) = some 0 := by
  constructor
  · decide
  · decide

/-- Claim C8, amended: `derive_price_per_area(price, size)` returns
price/size rounded to 2 decimals exactly when both inputs are present,
price ≠ 0 and size > 0, and nothing otherwise; in particular
(448400, 80) ↦ 5605.0, and size 0 or a missing input yields nothing. -/
theorem derive_price_per_sqm_spec :
    (∀ (pv : Option ℤ) (sv : Option ℚ),
      derive_price_per_sqm pv sv = derive_price_per_area_amended pv sv)
    ∧ derive_price_per_sqm (some 448400) (some 80) = some 5605
    ∧ derive_price_per_sqm (some 448400) (some 0) = none
    ∧ derive_price_per_sqm (some 448400) none = none
    ∧ derive_price_per_sqm none (some 80) = none := by
  refine ⟨?_, by decide, by decide, by decide, by decide⟩
  intro pv sv
  cases pv with
  | none => rfl
  | some p =>
    cases sv with
    | none => rfl
    | some sz =>
      simp only [derive_price_per_sqm, derive_price_per_area_amended]
      exact if_congr ⟨fun h => ⟨h.1, h.2.2⟩, fun h => ⟨h.1, ne_of_gt h.2, h.2⟩⟩ rfl rfl

/-- Claim C8, amended, witness: the equivalence applied at a concrete input. -/
theorem derive_price_per_sqm_spec_witness :
    derive_price_per_sqm (some 5) (some 2) = derive_price_per_area_amended (some 5) (some 2) :=
  derive_price_per_sqm_spec.1 (some 5) (some 2)

/-- Claim C10: for an ad id already present, `get_or_create_listing` returns
the stored id and leaves the database completely unchanged, whatever url and
time are passed — so url, first_seen_at and the status record (including a
closed one) are untouched. -/
theorem get_or_create_listing_existing_no_mutation :
    ∀ (db : DB) (ad url : String) (now : Timestamp) (r : ListingRow),
      db.listings.find? (fun l => l.ad_id == ad) = some r →
      get_or_create_listing db ad url now = (db, r.id) := by
  intro db ad url now r h
  simp [get_or_create_listing, h]

/-- Claim C10, witness: a later call on the closed listing "X" with a
different url mutates nothing. -/
theorem get_or_create_listing_existing_no_mutation_witness :
    get_or_create_listing dbClosedX "X" "other-url" 99 = (dbClosedX, 1) :=
  get_or_create_listing_existing_no_mutation dbClosedX "X" "other-url" 99
    ⟨1, "X", "u", 0⟩ (by decide)

/-- Claim C3, counterexample: marking the already-closed listing "X" closed
again at time 20 overwrites its closed_at (which was 10) and reports count 1;
the claim demands the record stay unchanged. -/
theorem mark_listings_closed_overwrites_closed_counterexample :
    (mark_listings_closed dbClosedX ["X"] 20).1.listing_status = [⟨1, "closed", some 20⟩]
    ∧ (mark_listings_closed dbClosedX ["X"] 20).2 = 1
    ∧ dbClosedX.listing_status = [⟨1, "closed", some 10⟩] := by
  refine ⟨by decide, by decide, by decide⟩

/-- Claim C3, amended: `mark_closed` sets status=closed and closed_at=at for
every listing whose ad_id is in the given set regardless of its current
status (an already-closed listing's closed_at is overwritten), returns the
number of status rows of matched listings, and on empty input returns 0 and
changes nothing; listings and snapshots are never touched. -/
theorem mark_listings_closed_spec :
    ∀ (db : DB) (ad_ids : List String) (t : Timestamp),
      (ad_ids = [] → mark_listings_closed db ad_ids t = (db, 0))
      ∧ (mark_listings_closed db ad_ids t).1.listings = db.listings
      ∧ (mark_listings_closed db ad_ids t).1.snapshots = db.snapshots
      ∧ (mark_listings_closed db ad_ids t).1.listing_status.length
          = db.listing_status.length
      ∧ (∀ st ∈ db.listing_status,
          ((matched_listing_ids db ad_ids).contains st.listing_id = false →
            st ∈ (mark_listings_closed db ad_ids t).1.listing_status)
          ∧ ((matched_listing_ids db ad_ids).contains st.listing_id = true →
            { st with status := "closed", closed_at := some t }
              ∈ (mark_listings_closed db ad_ids t).1.listing_status))
      ∧ (mark_listings_closed db ad_ids t).2
          = db.listing_status.countP
              (fun st => (matched_listing_ids db ad_ids).contains st.listing_id) := by
  intro db ad_ids t
  by_cases he : ad_ids.isEmpty
  · have hnil : ad_ids = [] := List.isEmpty_iff.mp he
    subst hnil
    have hm : matched_listing_ids db [] = [] := by
      simp [matched_listing_ids]
    refine ⟨fun _ => by simp [mark_listings_closed], ?_, ?_, ?_, ?_, ?_⟩
    · simp [mark_listings_closed]
    · simp [mark_listings_closed]
    · simp [mark_listings_closed]
    · intro st hst
      refine ⟨fun _ => by simpa [mark_listings_closed] using hst, fun hc => ?_⟩
      rw [hm] at hc
      simp at hc
    · rw [hm]
      simp [mark_listings_closed]
  · have hne : ad_ids.isEmpty = false := by
      cases h : ad_ids.isEmpty
      · rfl
      · exact absurd h he
    refine ⟨?_, ?_, ?_, ?_, ?_, ?_⟩
    · intro h
      subst h
      simp at hne
    · simp [mark_listings_closed, hne]
    · simp [mark_listings_closed, hne]
    · simp [mark_listings_closed, hne]
    · intro st hst
      have houter : (mark_listings_closed db ad_ids t).1.listing_status
          = db.listing_status.map (fun st : StatusRow =>
              if (matched_listing_ids db ad_ids).contains st.listing_id then
                { st with status := "closed", closed_at := some t }
              else st) := by
        simp [mark_listings_closed, hne]
      constructor
      · intro hc
        rw [houter]
        refine List.mem_map.mpr ⟨st, hst, ?_⟩
        exact if_neg (fun hcond => by rw [hc] at hcond; exact Bool.false_ne_true hcond)
      · intro hc
        rw [houter]
        refine List.mem_map.mpr ⟨st, hst, ?_⟩
        exact if_pos hc
    · simp [mark_listings_closed, hne]

/-- Claim C3, amended, witness: on the concrete closed database, the empty
call is a no-op and the unmatched ad id "Y" leaves the closed row alone. -/
theorem mark_listings_closed_spec_witness :
    mark_listings_closed dbClosedX [] 20 = (dbClosedX, 0)
    ∧ (⟨1, "closed", some 10⟩ : StatusRow)
        ∈ (mark_listings_closed dbClosedX ["Y"] 20).1.listing_status :=
  ⟨(mark_listings_closed_spec dbClosedX [] 20).1 rfl,
   (((mark_listings_closed_spec dbClosedX ["Y"] 20).2.2.2.2.1
      ⟨1, "closed", some 10⟩ (by decide)).1 (by decide))⟩

/-- Fixture for the two-cycle scenario: listing A. -/
def listingA : Listing := ⟨"A", "A title", "", none, "", "", "", none, none, "urlA"⟩

/-- Fixture for the two-cycle scenario: listing B. -/
def listingB : Listing := ⟨"B", "B title", "", none, "", "", "", none, none, "urlB"⟩

/-- Cycle 1: a fresh store ingests ad ids A and B at capture time 1. -/
def cycle1 : CycleOutcome := run_scrape emptyDB 0 (Except.ok [listingA, listingB]) 1

/-- Cycle 2: the store after cycle 1 ingests ad id A only, at capture time 3. -/
def cycle2 : CycleOutcome := run_scrape cycle1.db 2 (Except.ok [listingA]) 3

/-- Claim C5: after cycle 1 ingests {A, B} and cycle 2 ingests {A} only,
cycle 2 completes with found 1, new 0, closed 1; A is open with 2 snapshots
and B is closed with closed_at equal to cycle 2's capture time. -/
theorem two_cycle_reconciliation :
    cycle2.result = RunResult.completed 1 0 1
    ∧ status_of cycle2.db "A" = some ⟨1, "open", none⟩
    ∧ snapshot_count cycle2.db "A" = 2
    ∧ status_of cycle2.db "B" = some ⟨2, "closed", some 3⟩
    ∧ snapshot_count cycle2.db "B" = 1 := by
  refine ⟨by decide, by decide, by decide, by decide, by decide⟩

/-- Claim C7: `get_or_create` is idempotent on ad_id — a second call returns
the same listing id and leaves the store unchanged — and a freshly created
listing comes with an initial status record of open (given the AUTOINCREMENT
invariant that every stored status row has listing_id below the counter). -/
theorem get_or_create_listing_idempotent_open :
    ∀ (db : DB) (ad u1 u2 : String) (t1 t2 : Timestamp),
      ((get_or_create_listing (get_or_create_listing db ad u1 t1).1 ad u2 t2).2
          = (get_or_create_listing db ad u1 t1).2
        ∧ (get_or_create_listing (get_or_create_listing db ad u1 t1).1 ad u2 t2).1
          = (get_or_create_listing db ad u1 t1).1)
      ∧ (db.listings.find? (fun l => l.ad_id == ad) = none →
         (∀ st ∈ db.listing_status, st.listing_id < db.next_listing_id) →
         status_of (get_or_create_listing db ad u1 t1).1 ad
           = some ⟨db.next_listing_id, "open", none⟩) := by
  intro db ad u1 u2 t1 t2
  constructor
  · cases h : db.listings.find? (fun l => l.ad_id == ad) with
    | some row =>
      constructor <;> simp [get_or_create_listing, h]
    | none =>
      have hfind2 : (db.listings ++ [(⟨db.next_listing_id, ad, u1, t1⟩ : ListingRow)]).find?
          (fun l => l.ad_id == ad) = some (⟨db.next_listing_id, ad, u1, t1⟩ : ListingRow) := by
        rw [List.find?_append, h]
        simp
      constructor <;> simp [get_or_create_listing, h, hfind2]
  · intro hnone hlt
    have hfind2 : (db.listings ++ [(⟨db.next_listing_id, ad, u1, t1⟩ : ListingRow)]).find?
        (fun l => l.ad_id == ad) = some (⟨db.next_listing_id, ad, u1, t1⟩ : ListingRow) := by
      rw [List.find?_append, hnone]
      simp
    have hstat : (db.listing_status ++ [(⟨db.next_listing_id, "open", none⟩ : StatusRow)]).find?
        (fun s => s.listing_id == db.next_listing_id)
        = some (⟨db.next_listing_id, "open", none⟩ : StatusRow) := by
      rw [List.find?_append]
      have hl : db.listing_status.find? (fun s => s.listing_id == db.next_listing_id)
          = none := by
        refine List.find?_eq_none.mpr (fun st hst => ?_)
        have hb := hlt st hst
        simp
        omega
      rw [hl]
      simp
    simp [status_of, listing_id_of, get_or_create_listing, hnone, hfind2, hstat]

/-- Claim C7, witness: creating "A" in the empty store yields status open for
listing id 1, and the second call is a no-op returning the same id. -/
theorem get_or_create_listing_idempotent_open_witness :
    ((get_or_create_listing (get_or_create_listing emptyDB "A" "u1" 5).1 "A" "u2" 6).2
        = (get_or_create_listing emptyDB "A" "u1" 5).2)
    ∧ status_of (get_or_create_listing emptyDB "A" "u1" 5).1 "A"
        = some ⟨1, "open", none⟩ :=
  ⟨(get_or_create_listing_idempotent_open emptyDB "A" "u1" "u2" 5 6).1.1,
   (get_or_create_listing_idempotent_open emptyDB "A" "u1" "u2" 5 6).2 rfl
     (by intro st hst; cases hst)⟩

/-- A digit character is not Python whitespace. -/
theorem not_ws_of_digit (c : Char) (h : isDigitChar c = true) : isPyWs c = false := by
  simp [isDigitChar] at h
  simp [isPyWs]
  omega

/-- The dropWhile of a list whose members all fail the predicate is itself. -/
theorem dropWhile_eq_self_of_not (l : List Char) (h : ∀ c ∈ l, isPyWs c = false) :
    l.dropWhile isPyWs = l := by
  cases l with
  | nil => rfl
  | cons a t => simp [List.dropWhile_cons, h a (List.mem_cons_self a t)]

/-- Stripping whitespace from an all-digit string changes nothing. -/
theorem stripChars_of_digits (l : List Char) (h : ∀ c ∈ l, isDigitChar c = true) :
    stripChars l = l := by
  have h1 : ∀ c ∈ l, isPyWs c = false := fun c hc => not_ws_of_digit c (h c hc)
  unfold stripChars
  rw [dropWhile_eq_self_of_not l h1,
    dropWhile_eq_self_of_not l.reverse (fun c hc => h1 c (List.mem_reverse.mp hc))]
  exact List.reverse_reverse l

/-- An all-digit string is a valid underscore-digit body. -/
theorem validDigitsUnd_of_digits :
    ∀ l : List Char, (∀ c ∈ l, isDigitChar c = true) → validDigitsUnd l = true := by
  intro l
  induction l with
  | nil => intro _; rfl
  | cons c r ih =>
    intro h
    have hc := h c (List.mem_cons_self c r)
    have hune : (c == '_') = false := by
      cases hbe : c == '_' with
      | false => rfl
      | true =>
        have hce : c = '_' := eq_of_beq hbe
        rw [hce] at hc
        exact absurd hc (by decide)
    unfold validDigitsUnd
    rw [hune]
    simp [hc]
    exact ih (fun d hd => h d (List.mem_cons_of_mem c hd))

/-- An all-digit string contains no underscore to drop. -/
theorem dropUnderscores_of_digits (l : List Char) (h : ∀ c ∈ l, isDigitChar c = true) :
    dropUnderscores l = l := by
  refine List.filter_eq_self.mpr (fun c hc => ?_)
  have hd := h c hc
  simp [bne_iff_ne]
  intro heq
  rw [heq] at hd
  exact absurd hd (by decide)

/-- Python `int` on a nonempty all-digit string returns its decimal value. -/
theorem pythonInt_digits (l : List Char) (hne : l ≠ [])
    (h : ∀ c ∈ l, isDigitChar c = true) :
    pythonInt (String.mk l) = some ((digitsVal l : ℤ)) := by
  unfold pythonInt
  have hdata : (String.mk l).data = l := rfl
  rw [hdata, stripChars_of_digits l h]
  cases l with
  | nil => exact absurd rfl hne
  | cons c rest =>
    have hc := h c (List.mem_cons_self c rest)
    have hminus : (c == '-') = false := by
      cases hbe : c == '-' with
      | false => rfl
      | true =>
        have hce : c = '-' := eq_of_beq hbe
        rw [hce] at hc
        exact absurd hc (by decide)
    have hplus : (c == '+') = false := by
      cases hbe : c == '+' with
      | false => rfl
      | true =>
        have hce : c = '+' := eq_of_beq hbe
        rw [hce] at hc
        exact absurd hc (by decide)
    have hvalid : validIntBody (c :: rest) = true := by
      simp [validIntBody, hc, validDigitsUnd_of_digits _ h]
    simp [hminus, hplus, hvalid, dropUnderscores_of_digits _ h]

/-- Claim C4, counterexample: on "€ 448.400,50" the code removes the comma
and concatenates the decimal digits, returning 44840050, while the claimed
behaviour (drop the decimal part after the comma) yields 448400. -/
theorem parse_price_value_comma_counterexample :
    parse_price_value "€ 448.400,50" = some 44840050
    ∧ parse_price_claimed "€ 448.400,50" = some 448400 := by
  constructor
  · decide
  · decide

/-- Claim C4, amended: `parse_price` strips the currency symbol, spaces and
all `.` and `,` characters — digits after a decimal comma are concatenated
into the integer, not dropped — and parses the remainder as a Python integer
(so `none` on empty input or an unparseable remainder, and a nonempty digit
remainder yields its decimal value). -/
theorem parse_price_value_spec :
    parse_price_value "" = none
    ∧ (∀ s : String, s ≠ "" → parse_price_value s = pythonInt (cleanedPrice s))
    ∧ (∀ l : List Char, l ≠ [] → (∀ c ∈ l, isDigitChar c = true) →
        pythonInt (String.mk l) = some ((digitsVal l : ℤ)))
    ∧ parse_price_value "€ 448.400" = some 448400
    ∧ parse_price_value "€ 448.400,50" = some 44840050 := by
  refine ⟨rfl, ?_, pythonInt_digits, by decide, by decide⟩
  intro s hs
  simp [parse_price_value, hs]

/-- Claim C4, amended, witness: the characterization applied at "123". -/
theorem parse_price_value_spec_witness :
    parse_price_value "123" = pythonInt (cleanedPrice "123")
    ∧ pythonInt (String.mk ['1', '2', '3']) = some 123 :=
  ⟨parse_price_value_spec.2.1 "123" (by decide),
   parse_price_value_spec.2.2.1 ['1', '2', '3'] (by decide) (by decide)⟩

/-- Shape of the status table after `get_or_create_listing`: unchanged, or
one new open row appended. -/
theorem get_or_create_listing_status_shape (db : DB) (ad u : String) (t : Timestamp) :
    (get_or_create_listing db ad u t).1.listing_status = db.listing_status
    ∨ (get_or_create_listing db ad u t).1.listing_status
        = db.listing_status ++ [⟨db.next_listing_id, "open", none⟩] := by
  cases h : db.listings.find? (fun l => l.ad_id == ad) with
  | some row => left; simp [get_or_create_listing, h]
  | none => right; simp [get_or_create_listing, h]

/-- A successful snapshot insertion leaves the status table unchanged. -/
theorem insert_snapshot_ok_status (db : DB) (r : SnapshotRow) (db2 : DB)
    (h : insert_snapshot db r = Except.ok db2) :
    db2.listing_status = db.listing_status := by
  unfold insert_snapshot at h
  split at h
  · cases h
  · injection h with h2
    rw [← h2]

/-- When the ingestion loop aborts with an exception, the status table at the
abort point is the input status table plus freshly created open rows only:
no status row was mutated or closed. -/
theorem process_listings_err_status (ob : List String) (cap : Timestamp) :
    ∀ (lst : List Listing) (db : DB) (scraped : List String) (n : Nat) (db' : DB) (e : String),
      process_listings ob cap db lst scraped n = ProcResult.err db' e →
      ∃ extra, db'.listing_status = db.listing_status ++ extra
        ∧ ∀ r ∈ extra, r.status = "open" ∧ r.closed_at = none := by
  intro lst
  induction lst with
  | nil =>
    intro db scraped n db' e h
    simp [process_listings] at h
  | cons l rest ih =>
    intro db scraped n db' e h
    simp only [process_listings] at h
    by_cases had : l.ad_id = ""
    · rw [if_pos had] at h
      exact ih db scraped n db' e h
    · rw [if_neg had] at h
      cases hins : insert_snapshot (get_or_create_listing db l.ad_id l.url cap).1
          { listing_id := (get_or_create_listing db l.ad_id l.url cap).2,
            scraped_at := cap, title := l.title, price := l.price,
            price_value := l.price_value, location := l.location, rooms := l.rooms,
            size_sqm := l.size_sqm, size_sqm_value := l.size_sqm_value,
            price_per_sqm := l.price_per_sqm } with
      | error e2 =>
        rw [hins] at h
        cases h
        rcases get_or_create_listing_status_shape db l.ad_id l.url cap with h1 | h1
        · exact ⟨[], by rw [h1, List.append_nil], by intro r hr; cases hr⟩
        · refine ⟨[⟨db.next_listing_id, "open", none⟩], h1, ?_⟩
          intro r hr
          cases hr with
          | head => exact ⟨rfl, rfl⟩
          | tail _ h2 => cases h2
      | ok db2 =>
        rw [hins] at h
        obtain ⟨extra2, h2, hall2⟩ := ih db2 _ _ db' e h
        have hstat2 := insert_snapshot_ok_status _ _ _ hins
        rcases get_or_create_listing_status_shape db l.ad_id l.url cap with h1 | h1
        · exact ⟨extra2, by rw [h2, hstat2, h1], hall2⟩
        · refine ⟨⟨db.next_listing_id, "open", none⟩ :: extra2, ?_, ?_⟩
          · rw [h2, hstat2, h1, List.append_assoc, List.singleton_append]
          · intro r hr
            cases hr with
            | head => exact ⟨rfl, rfl⟩
            | tail _ h3 => exact hall2 r h3

/-- Claim C2, counterexample: a scrape whose items repeat ad id "A" raises
DuplicateSnapshot on the second occurrence; the run fails, the item after the
duplicate ("B") is never ingested, and only one snapshot of "A" exists — the
cycle does not skip the item and continue to completion. -/
theorem run_scrape_duplicate_skip_counterexample :
    (run_scrape emptyDB 0 (Except.ok [mkListing "A", mkListing "A", mkListing "B"]) 1).result
      = RunResult.failed
          "UNIQUE constraint failed: snapshots.listing_id, snapshots.scraped_at"
    ∧ listing_id_of
        (run_scrape emptyDB 0 (Except.ok [mkListing "A", mkListing "A", mkListing "B"]) 1).db
        "B" = none
    ∧ snapshot_count
        (run_scrape emptyDB 0 (Except.ok [mkListing "A", mkListing "A", mkListing "B"]) 1).db
        "A" = 1 := by
  refine ⟨by decide, by decide, by decide⟩

/-- Claim C2, amended: a DuplicateSnapshot does not skip the one record — the
exception aborts the cycle as a failure.  Whenever a cycle over a scraped
list fails, the pre-cycle status rows survive verbatim (only freshly created
open rows are added): in particular nothing is marked closed by a failed
cycle. -/
theorem run_scrape_duplicate_aborts :
    ∀ (db : DB) (startedAt : Timestamp) (listings : List Listing) (capturedAt : Timestamp)
      (e : String),
      (run_scrape db startedAt (Except.ok listings) capturedAt).result = RunResult.failed e →
      ∃ extra,
        (run_scrape db startedAt (Except.ok listings) capturedAt).db.listing_status
          = db.listing_status ++ extra
        ∧ ∀ r ∈ extra, r.status = "open" ∧ r.closed_at = none := by
  intro db s listings cap e h
  cases hp : process_listings (get_open_listing_ad_ids (start_scrape_run db s).1) cap
      (start_scrape_run db s).1 listings [] 0 with
  | ok db1 ids n =>
    rw [run_scrape] at h
    simp only [hp] at h
    cases h
  | err dbF e2 =>
    have hdb : (run_scrape db s (Except.ok listings) cap).db
        = fail_scrape_run dbF (start_scrape_run db s).2 e2 cap := by
      rw [run_scrape]
      simp only [hp]
    obtain ⟨extra, h1, h2⟩ := process_listings_err_status _ _ listings _ [] 0 dbF e2 hp
    refine ⟨extra, ?_, h2⟩
    rw [hdb]
    have hfs : (fail_scrape_run dbF (start_scrape_run db s).2 e2 cap).listing_status
        = dbF.listing_status := by
      simp [fail_scrape_run]
    rw [hfs, h1]
    simp [start_scrape_run]

/-- Claim C2, amended, witness: the concrete duplicate run fails and its
status table is the (empty) pre-cycle table plus the single open row of "A". -/
theorem run_scrape_duplicate_aborts_witness :
    ∃ extra,
      (run_scrape emptyDB 0 (Except.ok [mkListing "A", mkListing "A", mkListing "B"])
          1).db.listing_status = emptyDB.listing_status ++ extra
      ∧ ∀ r ∈ extra, r.status = "open" ∧ r.closed_at = none :=
  run_scrape_duplicate_aborts emptyDB 0 [mkListing "A", mkListing "A", mkListing "B"] 1
    "UNIQUE constraint failed: snapshots.listing_id, snapshots.scraped_at" (by decide)

/-- Claim C1, counterexample: an empty scrape result that is returned without
failure is not treated as a failed cycle — the run completes, reports one
closure, and the previously open listing "X" is marked closed at the capture
time, contradicting "no previously-open listing is marked closed off an empty
scrape result". -/
theorem run_scrape_empty_closes_all_counterexample :
    (run_scrape dbOneOpen 10 (Except.ok []) 11).result = RunResult.completed 0 0 1
    ∧ status_of (run_scrape dbOneOpen 10 (Except.ok []) 11).db "X"
        = some ⟨1, "closed", some 11⟩ := by
  refine ⟨by decide, by decide⟩

/-- Claim C1, amended: if the scrape collaborator fails (raises) before
producing any listings, the cycle aborts as a failure with no change to any
table but the run log; but an empty successful scrape result is processed
normally under the closed-world rule — the cycle completes with found 0,
new 0, and every previously open listing (whose status row belongs to a
stored listing) is marked closed at the capture time. -/
theorem run_scrape_failed_vs_empty :
    (∀ (db : DB) (startedAt : Timestamp) (e : String) (capturedAt : Timestamp),
      (run_scrape db startedAt (Except.error e) capturedAt).result = RunResult.failed e
      ∧ (run_scrape db startedAt (Except.error e) capturedAt).db.listing_status
          = db.listing_status
      ∧ (run_scrape db startedAt (Except.error e) capturedAt).db.snapshots = db.snapshots
      ∧ (run_scrape db startedAt (Except.error e) capturedAt).db.listings = db.listings)
    ∧ (∀ (db : DB) (startedAt capturedAt : Timestamp),
      (∃ c, (run_scrape db startedAt (Except.ok []) capturedAt).result
          = RunResult.completed 0 0 c)
      ∧ (∀ st ∈ db.listing_status, st.status = "open" →
          (∃ l ∈ db.listings, st.listing_id = l.id) →
          ({ st with status := "closed", closed_at := some capturedAt } : StatusRow)
            ∈ (run_scrape db startedAt (Except.ok []) capturedAt).db.listing_status)) := by
  constructor
  · intro db s e cap
    refine ⟨rfl, ?_, ?_, ?_⟩ <;> simp [run_scrape, fail_scrape_run, start_scrape_run]
  · intro db s cap
    constructor
    · exact ⟨_, rfl⟩
    · intro st hst hopen ⟨l, hl, hid⟩
      have hl0 : l ∈ (start_scrape_run db s).1.listings := by
        simpa [start_scrape_run] using hl
      have hst0 : st ∈ (start_scrape_run db s).1.listing_status := by
        simpa [start_scrape_run] using hst
      have hob : l.ad_id ∈ get_open_listing_ad_ids (start_scrape_run db s).1 := by
        unfold get_open_listing_ad_ids
        refine List.mem_flatten.mpr ⟨_, List.mem_map_of_mem _ hl0, ?_⟩
        refine List.mem_filterMap.mpr ⟨st, hst0, ?_⟩
        simp [hid, hopen]
      have hproc : process_listings (get_open_listing_ad_ids (start_scrape_run db s).1) cap
          (start_scrape_run db s).1 [] [] 0
          = ProcResult.ok (start_scrape_run db s).1 [] 0 := rfl
      have hfiltr : (get_open_listing_ad_ids (start_scrape_run db s).1).filter
          (fun a => !([] : List String).contains a)
          = get_open_listing_ad_ids (start_scrape_run db s).1 := by
        have hfun : (fun a : String => !([] : List String).contains a) = fun _ => true := by
          funext a
          rfl
        rw [hfun, List.filter_true]
      have hne : (get_open_listing_ad_ids (start_scrape_run db s).1).isEmpty = false := by
        cases hcase : (get_open_listing_ad_ids (start_scrape_run db s).1) with
        | nil => rw [hcase] at hob; cases hob
        | cons a t => rfl
      rw [run_scrape]
      simp only [hproc, hfiltr, hne, Bool.false_eq_true, if_false]
      have hcomp : ∀ (dbx : DB) (rid : Nat) (a b c : ℤ) (now : Timestamp),
          (complete_scrape_run dbx rid a b c now).listing_status = dbx.listing_status := by
        intro dbx rid a b c now
        simp [complete_scrape_run]
      rw [hcomp]
      unfold mark_listings_closed
      rw [if_neg (by rw [hne]; exact Bool.false_ne_true)]
      have hmid : st.listing_id ∈ matched_listing_ids (start_scrape_run db s).1
          (get_open_listing_ad_ids (start_scrape_run db s).1) := by
        refine List.mem_filterMap.mpr ⟨l, hl0, ?_⟩
        rw [if_pos (List.elem_iff.mpr hob), hid]
      refine List.mem_map.mpr ⟨st, hst0, ?_⟩
      rw [if_pos (List.elem_iff.mpr hmid)]

/-- Claim C1, amended, witness: a failing scrape leaves the one-open-listing
store untouched and reports failure; an empty successful scrape closes "X". -/
theorem run_scrape_failed_vs_empty_witness :
    ((run_scrape dbOneOpen 10 (Except.error "boom") 11).result = RunResult.failed "boom"
      ∧ (run_scrape dbOneOpen 10 (Except.error "boom") 11).db.listing_status
          = dbOneOpen.listing_status)
    ∧ ({ listing_id := 1, status := "closed", closed_at := some 11 } : StatusRow)
        ∈ (run_scrape dbOneOpen 10 (Except.ok []) 11).db.listing_status :=
  ⟨⟨(run_scrape_failed_vs_empty.1 dbOneOpen 10 "boom" 11).1,
    (run_scrape_failed_vs_empty.1 dbOneOpen 10 "boom" 11).2.1⟩,
   (run_scrape_failed_vs_empty.2 dbOneOpen 10 11).2 ⟨1, "open", none⟩ (by decide) rfl
     ⟨⟨1, "X", "u", 0⟩, by decide, rfl⟩⟩

/-- A snapshot holding only a price, captured at time 1. -/
def mkPriceSnap (lid : Nat) (p : ℤ) : SnapshotRow :=
  ⟨lid, 1, "", "", some p, "", "", "", none, none⟩

/-- Three listings priced 100000, 200000, 300000. -/
def dbThreePrices : DB :=
  ⟨[⟨1, "A", "u", 0⟩, ⟨2, "B", "u", 0⟩, ⟨3, "C", "u", 0⟩],
   [mkPriceSnap 1 100000, mkPriceSnap 2 200000, mkPriceSnap 3 300000],
   [⟨1, "open", none⟩, ⟨2, "open", none⟩, ⟨3, "open", none⟩], [], 4, 1⟩

/-- Four listings priced 100000, 200000, 300000, 400000. -/
def dbFourPrices : DB :=
  ⟨[⟨1, "A", "u", 0⟩, ⟨2, "B", "u", 0⟩, ⟨3, "C", "u", 0⟩, ⟨4, "D", "u", 0⟩],
   [mkPriceSnap 1 100000, mkPriceSnap 2 200000, mkPriceSnap 3 300000,
    mkPriceSnap 4 400000],
   [⟨1, "open", none⟩, ⟨2, "open", none⟩, ⟨3, "open", none⟩, ⟨4, "open", none⟩],
   [], 5, 1⟩

/-- Claim C6: `overall_stats` computes the median of the non-null prices of
the latest-snapshot view by the textbook definition — sort ascending, mean of
the two central elements for an even count, central element for an odd count
— rounded to a nearest whole unit; in particular [100000, 200000, 300000]
gives 200000 and [100000, 200000, 300000, 400000] gives 250000. -/
theorem overall_stats_median_textbook :
    (∀ db : DB,
      (get_overall_price_stats db).median_price
          = pythonRound (textbookMedian (latestPrices db))
      ∧ |(((get_overall_price_stats db).median_price : ℤ) : ℚ)
            - textbookMedian (latestPrices db)| ≤ 1/2)
    ∧ (get_overall_price_stats dbThreePrices).median_price = 200000
    ∧ (get_overall_price_stats dbFourPrices).median_price = 250000 := by
  refine ⟨?_, by decide, by decide⟩
  intro db
  have hkey : (get_overall_price_stats db).median_price
      = pythonRound (textbookMedian (latestPrices db)) := by
    simp only [get_overall_price_stats, overall_prices, textbookMedian]
    have hlen : ((latestPrices db).insertionSort (· ≤ ·)).length
        = (latestPrices db).length := (List.perm_insertionSort _ _).length_eq
    by_cases hemp : ((latestPrices db).insertionSort (· ≤ ·)).isEmpty
    · rw [if_pos hemp]
      have hnil : latestPrices db = [] := by
        have h0 : ((latestPrices db).insertionSort (· ≤ ·)) = [] :=
          List.isEmpty_iff.mp hemp
        have := hlen
        rw [h0] at this
        exact List.length_eq_zero.mp this.symm
      rw [hnil]
      decide
    · rw [if_neg hemp]
      rw [hlen]
  refine ⟨hkey, ?_⟩
  rw [hkey]
  exact pythonRound_nearest _

/-- Claim C6, witness: the general characterization applied to the concrete
three-listing store. -/
theorem overall_stats_median_textbook_witness :
    (get_overall_price_stats dbThreePrices).median_price
      = pythonRound (textbookMedian (latestPrices dbThreePrices)) :=
  (overall_stats_median_textbook.1 dbThreePrices).1

/-- One completed scrape run and nothing else. -/
def dbOneRun : DB :=
  ⟨[], [], [], [⟨1, 5, some 6, some 0, some 0, some 0, "completed"⟩], 1, 2⟩

/-- Claim C9: with zero completed runs `market_trends` returns the all-zero
record, and with exactly one completed run the previous aggregate equals the
current aggregate, so every percent-change delta (and the count change) is
zero. -/
theorem market_trends_few_runs :
    ∀ db : DB,
      ((db.scrape_runs.filter (fun r => r.status == "completed")).length = 0 →
        get_market_trends db = zeroTrends)
      ∧ ((db.scrape_runs.filter (fun r => r.status == "completed")).length = 1 →
        (get_market_trends db).price_change_pct = 0
        ∧ (get_market_trends db).ppsqm_change_pct = 0
        ∧ (get_market_trends db).count_change = 0
        ∧ (get_market_trends db).previous_avg_price
            = (get_market_trends db).current_avg_price
        ∧ (get_market_trends db).previous_avg_ppsqm
            = (get_market_trends db).current_avg_ppsqm
        ∧ (get_market_trends db).previous_count
            = (get_market_trends db).current_count) := by
  intro db
  have hzero : ∀ q : ℚ, pythonRound2 (if 0 < q then (q - q) / q * 100 else 0) = 0 := by
    intro q
    have hcond : (if 0 < q then (q - q) / q * 100 else 0) = 0 := by
      split
      · rw [sub_self, zero_div, zero_mul]
      · rfl
    rw [hcond]
    decide
  constructor
  · intro h0
    have hruns : completed_runs_desc db = [] := by
      unfold completed_runs_desc
      rw [List.length_eq_zero.mp h0]
      rfl
    simp [get_market_trends, hruns]
  · intro h1
    have hlen : (completed_runs_desc db).length = 1 := by
      unfold completed_runs_desc
      rw [List.length_take, (List.perm_insertionSort _ _).length_eq, h1]
      rfl
    have hnotlt : ¬ (completed_runs_desc db).length < 1 := by
      rw [hlen]
      omega
    have hno2 : ¬ (2 ≤ (completed_runs_desc db).length) := by
      rw [hlen]
      omega
    simp only [get_market_trends, if_neg hnotlt]
    have hand : ∀ p : Prop, (2 ≤ (completed_runs_desc db).length ∧ p) = False := by
      intro p
      simp [hno2]
    refine ⟨?_, ?_, ?_, ?_, ?_, ?_⟩ <;>
      simp only [hand, if_false] <;>
      first
        | exact hzero _
        | rw [sub_self]

/-- Claim C9, witness: an empty store yields the all-zero record, and a store
with a single completed run yields a zero price delta. -/
theorem market_trends_few_runs_witness :
    get_market_trends emptyDB = zeroTrends
    ∧ (get_market_trends dbOneRun).price_change_pct = 0 :=
  ⟨(market_trends_few_runs emptyDB).1 rfl,
   ((market_trends_few_runs dbOneRun).2 (by decide)).1⟩

end

end ViennaRE
